import Mathlib

/-!
Shallow embedding of the gesture classification core of `src/gesture_detection.py`
(class `GestureDetector`): the per-hand classifier `detect_gesture` and the
per-frame entry point `process_frame`.

Modelling decisions:
* Landmark coordinates are rationals (the Python floats are finite decimals in
  every scenario considered here).  A hand observation is a list of points; a
  malformed observation is a list of the wrong length.
* `time.time()` is an explicit rational argument `t` supplied per call.
* The Euclidean distances used by the static-pose helpers `_is_open_palm` /
  `_is_closed_fist` involve square roots, so they are valued in `ℝ`
  (`Real.sqrt` models `(dx**2 + dy**2) ** 0.5`); the two pose predicates are
  therefore classical propositions and the functions branching on them are
  noncomputable.  Every other branch of the classifier is exact rational
  arithmetic and reduces by `decide`.
* The `try/except` wrappers are modelled by explicit early returns at the
  exact program points where a Python `IndexError` would be raised
  (list accesses `landmark[0]`, `landmark[4]`, and the fingertip accesses up
  to `landmark[20]`), returning `none` together with the state as mutated up
  to that point, exactly as the handler observes it.
* Logging, the debug counters and drawing calls have no effect on the
  classification state and are omitted; `self.last_gesture` is written once
  in `__init__` and never read or updated, and is omitted as well.
-/

/-- A 2-D landmark or displacement sample, coordinates normalized to `[0,1]`
for landmarks (`x`, `y` attributes of a mediapipe landmark). -/
structure Pt where
  x : ℚ
  y : ℚ
deriving DecidableEq, Repr

/-- A hand observation: the landmark list of one detected hand
(well-formed hands have exactly 21 entries). -/
abbrev Hand := List Pt

/-- The closed gesture enumeration; the Python code uses the string tags
"play", "pause", "swipe_left", "swipe_right", "volume_up", "volume_down",
"quit". -/
inductive Gesture where
  | play
  | pause
  | swipe_left
  | swipe_right
  | volume_up
  | volume_down
  | quit
deriving DecidableEq, Repr

/-- The mutable classification state of a `GestureDetector` instance:
`initial_position`, `movement_history`, `last_gesture_time`,
`frame_skip_count`. -/
structure DState where
  initialPosition : Option Pt
  movementHistory : List Pt
  lastGestureTime : ℚ
  frameSkipCount : ℕ
deriving DecidableEq, Repr

/-- `self.play_pause_cooldown = 2.0`. -/
def playPauseCooldown : ℚ := 2

/-- `self.gesture_cooldown = 0.3`. -/
def gestureCooldown : ℚ := 3/10

/-- `self.swipe_threshold = 0.05` (set in `__init__`, never read by the
classification logic; kept for fidelity). -/
def swipeThreshold : ℚ := 1/20

/-- `self.min_swipe_frames = 3`. -/
def minSwipeFrames : ℕ := 3

/-- `self.movement_history_size = 3`. -/
def movementHistorySize : ℕ := 3

/-- `self.process_every_n_frames = 4`. -/
def processEveryNFrames : ℕ := 4

/-- The state of a freshly constructed `GestureDetector`:
`last_gesture_time = 0`, no stored reference, empty window, frame counter 0. -/
def initState : DState :=
  { initialPosition := none, movementHistory := [], lastGestureTime := 0,
    frameSkipCount := 0 }

/-- The tracking point of a hand: the average of the wrist landmark (index 0)
and the thumb-tip landmark (index 4), as computed at the top of
`detect_gesture`. -/
def trackPoint (hand : Hand) : Pt :=
  ⟨((hand.getD 0 ⟨0,0⟩).x + (hand.getD 4 ⟨0,0⟩).x) / 2,
   ((hand.getD 0 ⟨0,0⟩).y + (hand.getD 4 ⟨0,0⟩).y) / 2⟩

/-- The movement window after appending the displacement of `cur` from `ref`
and dropping the oldest sample when the capacity is exceeded
(`movement_history.append(...)` followed by the conditional `pop(0)`). -/
def nextHist (st : DState) (cur ref : Pt) : List Pt :=
  if movementHistorySize < (st.movementHistory ++ [(⟨cur.x - ref.x, cur.y - ref.y⟩ : Pt)]).length
  then (st.movementHistory ++ [(⟨cur.x - ref.x, cur.y - ref.y⟩ : Pt)]).drop 1
  else st.movementHistory ++ [(⟨cur.x - ref.x, cur.y - ref.y⟩ : Pt)]

/-- `net_x = last_offset[0] - first_offset[0]` over the movement window. -/
def netX (hist : List Pt) : ℚ :=
  (hist.getLastD ⟨0,0⟩).x - (hist.getD 0 ⟨0,0⟩).x

/-- `net_y = last_offset[1] - first_offset[1]` over the movement window. -/
def netY (hist : List Pt) : ℚ :=
  (hist.getLastD ⟨0,0⟩).y - (hist.getD 0 ⟨0,0⟩).y

/-- `ratio = abs(net_y / net_x) if abs(net_x) > 1e-3 else 0.0`. -/
def swipeRatio (hist : List Pt) : ℚ :=
  if 1/1000 < |netX hist| then |netY hist / netX hist| else 0

/-- The refined swipe test of `detect_gesture`: fires when the window is full
enough, the net horizontal displacement exceeds `0.08`, the vertical/horizontal
ratio is below `0.5` and the gesture cooldown has elapsed.  Direction is by the
sign of `net_x`. -/
def swipeTest (st : DState) (t : ℚ) (hist : List Pt) : Option Gesture :=
  if minSwipeFrames ≤ hist.length ∧ 8/100 < |netX hist| ∧ swipeRatio hist < 1/2
      ∧ gestureCooldown ≤ t - st.lastGestureTime
  then some (if 0 < netX hist then Gesture.swipe_right else Gesture.swipe_left)
  else none

/-- The volume (vertical pan) test of `detect_gesture`: fires when the window
is full enough, the cooldown has elapsed, the vertical displacement dominates
the horizontal one by a factor `1.5` and exceeds `0.08`.  Direction is by the
sign of `net_y`. -/
def volumeTest (st : DState) (t : ℚ) (hist : List Pt) : Option Gesture :=
  if minSwipeFrames ≤ hist.length ∧ gestureCooldown ≤ t - st.lastGestureTime
      ∧ |netX hist| * (3/2) < |netY hist| ∧ 8/100 < |netY hist|
  then some (if netY hist < 0 then Gesture.volume_up else Gesture.volume_down)
  else none

/-- The state written whenever `detect_gesture` emits a gesture:
`last_gesture_time = current_time`, `initial_position = None`,
`movement_history = []`. -/
def fireSt (st : DState) (t : ℚ) : DState :=
  { st with
      initialPosition := none
      movementHistory := []
      lastGestureTime := t }

/-- Distance from the fingertip at index `i` to the wrist landmark, as
computed inside `_is_open_palm` / `_is_closed_fist`:
`((tip.x - wrist.x)**2 + (tip.y - wrist.y)**2) ** 0.5`. -/
noncomputable def tipDist (hand : Hand) (i : ℕ) : ℝ :=
  Real.sqrt ((((hand.getD i ⟨0,0⟩).x : ℝ) - ((hand.getD 0 ⟨0,0⟩).x : ℝ)) ^ 2
    + (((hand.getD i ⟨0,0⟩).y : ℝ) - ((hand.getD 0 ⟨0,0⟩).y : ℝ)) ^ 2)

/-- Average distance from the wrist to the five fingertip landmarks
4, 8, 12, 16, 20. -/
noncomputable def avgTipDist (hand : Hand) : ℝ :=
  (tipDist hand 4 + tipDist hand 8 + tipDist hand 12 + tipDist hand 16
    + tipDist hand 20) / 5

/-- `_is_open_palm`: the average fingertip distance exceeds `0.12`. -/
def IsOpenPalm (hand : Hand) : Prop := (12/100 : ℝ) < avgTipDist hand

/-- `_is_closed_fist`: the average fingertip distance is below `0.06`. -/
def IsClosedFist (hand : Hand) : Prop := avgTipDist hand < (6/100 : ℝ)

/-- Classical decidability for the open-palm pose proposition. -/
noncomputable instance instDecOpenPalm (hand : Hand) : Decidable (IsOpenPalm hand) :=
  Classical.propDecidable _

/-- Classical decidability for the closed-fist pose proposition. -/
noncomputable instance instDecClosedFist (hand : Hand) : Decidable (IsClosedFist hand) :=
  Classical.propDecidable _

/-- The per-hand classifier `detect_gesture`.  Returns the emitted gesture (if
any) and the successor state.  A hand with fewer than 5 landmarks raises an
`IndexError` at `landmark[0]` or `landmark[4]` before any state mutation; the
`except` handler returns `None` with the state unchanged.  A hand with fewer
than 21 landmarks reaching the static-pose test raises inside
`_is_open_palm`; at that point the movement window has already been updated
but the reference position has not. -/
noncomputable def detectGesture (st : DState) (t : ℚ) (hand : Hand) :
    Option Gesture × DState :=
  if hand.length < 5 then (none, st)
  else
    match st.initialPosition with
    | none =>
        (none, { st with
                 initialPosition := some (trackPoint hand)
                 movementHistory := [] })
    | some ref =>
        match swipeTest st t (nextHist st (trackPoint hand) ref) with
        | some g => (some g, fireSt st t)
        | none =>
            match volumeTest st t (nextHist st (trackPoint hand) ref) with
            | some g => (some g, fireSt st t)
            | none =>
                if playPauseCooldown ≤ t - st.lastGestureTime then
                  if hand.length < 21 then
                    (none, { st with
                      movementHistory := nextHist st (trackPoint hand) ref })
                  else if IsOpenPalm hand then (some Gesture.play, fireSt st t)
                  else if IsClosedFist hand then
                    (some Gesture.pause, fireSt st t)
                  else
                    (none, { st with
                      movementHistory := nextHist st (trackPoint hand) ref
                      initialPosition := some (trackPoint hand) })
                else
                  (none, { st with
                    movementHistory := nextHist st (trackPoint hand) ref
                    initialPosition := some (trackPoint hand) })

/-- The per-frame hand loop of `process_frame`: hands are classified in order
and the loop stops at the first hand that yields a gesture. -/
noncomputable def handLoop (st : DState) (t : ℚ) : List Hand → Option Gesture × DState
  | [] => (none, st)
  | h :: rest =>
      match detectGesture st t h with
      | (some g, st') => (some g, st')
      | (none, st') => handLoop st' t rest

/-- The per-frame entry point `process_frame`, with the externally produced
hand-observation list as input (the camera frame, resizing and mediapipe
inference are outside the model).  The frame counter is incremented first;
non-multiple counts skip all classification.  Then the two-hand quit check
runs (a missing wrist landmark raises an `IndexError` that the outer handler
turns into `None`), then the hand loop, and an empty observation list resets
the tracker. -/
noncomputable def processFrame (st : DState) (t : ℚ) (hands : List Hand) :
    Option Gesture × DState :=
  if (st.frameSkipCount + 1) % processEveryNFrames ≠ 0 then
    (none, { st with frameSkipCount := st.frameSkipCount + 1 })
  else if 2 ≤ hands.length then
    if (hands.getD 0 []).length < 1 ∨ (hands.getD 1 []).length < 1 then
      (none, { st with frameSkipCount := st.frameSkipCount + 1 })
    else if ((hands.getD 0 []).getD 0 ⟨0,0⟩).y < 3/10
        ∧ ((hands.getD 1 []).getD 0 ⟨0,0⟩).y < 3/10 then
      (some Gesture.quit, { st with frameSkipCount := st.frameSkipCount + 1 })
    else handLoop { st with frameSkipCount := st.frameSkipCount + 1 } t hands
  else if hands.isEmpty then
    (none, { st with
             frameSkipCount := st.frameSkipCount + 1
             initialPosition := none
             movementHistory := [] })
  else handLoop { st with frameSkipCount := st.frameSkipCount + 1 } t hands

/-- Gestures of the motion class (subject to `gesture_cooldown`). -/
def isMotionGesture : Gesture → Bool
  | Gesture.swipe_left => true
  | Gesture.swipe_right => true
  | Gesture.volume_up => true
  | Gesture.volume_down => true
  | _ => false

/-- Gestures of the static-pose class (subject to `play_pause_cooldown`). -/
def isStaticGesture : Gesture → Bool
  | Gesture.play => true
  | Gesture.pause => true
  | _ => false

/-- The cooldown the per-hand classifier enforces before emitting a gesture of
the given kind (`quit` is never emitted by `detect_gesture`). -/
def cooldownFor (g : Gesture) : ℚ :=
  if isMotionGesture g then gestureCooldown
  else if isStaticGesture g then playPauseCooldown
  else 0

/-- The sequence of classifier outputs along a trace of `detect_gesture`
calls, each call given by its wall-clock time and its hand observation. -/
noncomputable def outsDG (st : DState) : List (ℚ × Hand) → List (Option Gesture)
  | [] => []
  | p :: r =>
      (detectGesture st p.1 p.2).1 :: outsDG (detectGesture st p.1 p.2).2 r

/-- The state after a trace of `process_frame` calls. -/
noncomputable def runPF (st : DState) : List (ℚ × List Hand) → DState
  | [] => st
  | p :: r => runPF (processFrame st p.1 p.2).2 r

/-- A degenerate but well-formed hand observation: 21 copies of one point.
Its tracking midpoint is the point itself. -/
def constHand (p : Pt) : Hand := List.replicate 21 p

/-- A well-formed open-palm hand: wrist and non-fingertip landmarks at
`(0.5, 0.5)`, the five fingertips at `(0.65, 0.5)`, so every fingertip is at
distance `0.15` from the wrist. -/
def palmHand : Hand :=
  [⟨1/2,1/2⟩, ⟨1/2,1/2⟩, ⟨1/2,1/2⟩, ⟨1/2,1/2⟩, ⟨13/20,1/2⟩,
   ⟨1/2,1/2⟩, ⟨1/2,1/2⟩, ⟨1/2,1/2⟩, ⟨13/20,1/2⟩,
   ⟨1/2,1/2⟩, ⟨1/2,1/2⟩, ⟨1/2,1/2⟩, ⟨13/20,1/2⟩,
   ⟨1/2,1/2⟩, ⟨1/2,1/2⟩, ⟨1/2,1/2⟩, ⟨13/20,1/2⟩,
   ⟨1/2,1/2⟩, ⟨1/2,1/2⟩, ⟨1/2,1/2⟩, ⟨13/20,1/2⟩]

/-- State after the first call of the swipe-right scenario of the spec
(reference point `(0.3, 0.5)`, fresh tracker, call time 1). -/
noncomputable def c1st1x : DState := (detectGesture initState 1 (constHand ⟨3/10, 1/2⟩)).2

/-- State after the second scenario call (reference point `(0.35, 0.51)`). -/
noncomputable def c1st2x : DState := (detectGesture c1st1x (11/10) (constHand ⟨7/20, 51/100⟩)).2

/-- State after the third scenario call (reference point `(0.42, 0.50)`). -/
noncomputable def c1st3x : DState := (detectGesture c1st2x (6/5) (constHand ⟨21/50, 1/2⟩)).2

/-- A trace of eight classifier calls with nondecreasing times in which a
swipe-right fires at index 3 (time `0.5`) and again at index 7 (time `1`). -/
def tr8 : List (ℚ × Hand) :=
  [(0, constHand ⟨1/10, 1/2⟩), (1/10, constHand ⟨1/10, 1/2⟩),
   (1/5, constHand ⟨1/5, 1/2⟩), (1/2, constHand ⟨7/20, 1/2⟩),
   (3/5, constHand ⟨1/10, 1/2⟩), (7/10, constHand ⟨1/10, 1/2⟩),
   (4/5, constHand ⟨1/5, 1/2⟩), (1, constHand ⟨7/20, 1/2⟩)]

/-- A successful swipe test emits a swipe gesture and requires the motion
cooldown to have elapsed. -/
lemma swipeTest_eq_some (st : DState) (t : ℚ) (hist : List Pt) (g : Gesture)
    (h : swipeTest st t hist = some g) :
    (g = Gesture.swipe_right ∨ g = Gesture.swipe_left)
    ∧ gestureCooldown ≤ t - st.lastGestureTime := by
  unfold swipeTest at h
  split at h
  · next hc =>
    refine ⟨?_, hc.2.2.2⟩
    have hg := Option.some.inj h
    by_cases h0 : 0 < netX hist
    · exact Or.inl (by rw [← hg, if_pos h0])
    · exact Or.inr (by rw [← hg, if_neg h0])
  · exact absurd h (by simp)

/-- A successful volume test emits a volume gesture and requires the motion
cooldown to have elapsed. -/
lemma volumeTest_eq_some (st : DState) (t : ℚ) (hist : List Pt) (g : Gesture)
    (h : volumeTest st t hist = some g) :
    (g = Gesture.volume_up ∨ g = Gesture.volume_down)
    ∧ gestureCooldown ≤ t - st.lastGestureTime := by
  unfold volumeTest at h
  split at h
  · next hc =>
    refine ⟨?_, hc.2.1⟩
    have hg := Option.some.inj h
    by_cases h0 : netY hist < 0
    · exact Or.inl (by rw [← hg, if_pos h0])
    · exact Or.inr (by rw [← hg, if_neg h0])
  · exact absurd h (by simp)

/-- Whenever `detect_gesture` emits a gesture, the successor state is the
fire state (tracker cleared, `last_gesture_time` set to the call time) and
the cooldown of the emitted gesture kind had elapsed. -/
lemma detectGesture_fire (st : DState) (t : ℚ) (hand : Hand) (g : Gesture) (st' : DState)
    (h : detectGesture st t hand = (some g, st')) :
    st' = fireSt st t ∧ cooldownFor g ≤ t - st.lastGestureTime := by
  unfold detectGesture at h
  split at h
  · simp at h
  · split at h
    · simp at h
    · split at h
      · next g0 heq =>
        simp only [Prod.mk.injEq] at h
        obtain ⟨hg, hst⟩ := h
        cases Option.some.inj hg
        obtain ⟨hdir, hcd⟩ := swipeTest_eq_some _ _ _ _ heq
        refine ⟨hst.symm, ?_⟩
        rcases hdir with rfl | rfl <;>
          simpa [cooldownFor, isMotionGesture] using hcd
      · split at h
        · next g0 heq =>
          simp only [Prod.mk.injEq] at h
          obtain ⟨hg, hst⟩ := h
          cases Option.some.inj hg
          obtain ⟨hdir, hcd⟩ := volumeTest_eq_some _ _ _ _ heq
          refine ⟨hst.symm, ?_⟩
          rcases hdir with rfl | rfl <;>
            simpa [cooldownFor, isMotionGesture] using hcd
        · split at h
          · next hcd =>
            split at h
            · simp at h
            · split at h
              · simp only [Prod.mk.injEq] at h
                obtain ⟨hg, hst⟩ := h
                cases Option.some.inj hg
                exact ⟨hst.symm, by
                  simpa [cooldownFor, isMotionGesture, isStaticGesture] using hcd⟩
              · split at h
                · simp only [Prod.mk.injEq] at h
                  obtain ⟨hg, hst⟩ := h
                  cases Option.some.inj hg
                  exact ⟨hst.symm, by
                    simpa [cooldownFor, isMotionGesture, isStaticGesture] using hcd⟩
                · simp at h
          · simp at h

/-- When `detect_gesture` emits no gesture it leaves `last_gesture_time`
unchanged. -/
lemma detectGesture_none_state (st : DState) (t : ℚ) (hand : Hand) (st' : DState)
    (h : detectGesture st t hand = (none, st')) :
    st'.lastGestureTime = st.lastGestureTime := by
  unfold detectGesture at h
  split at h
  · cases h; rfl
  · split at h
    · cases h; rfl
    · split at h
      · simp at h
      · split at h
        · simp at h
        · split at h
          · split at h
            · cases h; rfl
            · split at h
              · simp at h
              · split at h
                · simp at h
                · cases h; rfl
          · cases h; rfl

/-- Appending one sample and conditionally dropping the oldest keeps the
window within its capacity. -/
lemma nextHist_length_le (st : DState) (cur ref : Pt)
    (h : st.movementHistory.length ≤ movementHistorySize) :
    (nextHist st cur ref).length ≤ movementHistorySize := by
  unfold nextHist
  split
  · next hgt =>
    simp only [List.length_drop, List.length_append, List.length_cons,
      List.length_nil] at hgt ⊢
    omega
  · next hle =>
    simp only [List.length_append, List.length_cons, List.length_nil] at hle ⊢
    omega

/-- One `detect_gesture` call preserves the window bound. -/
lemma detectGesture_hist_le (st : DState) (t : ℚ) (hand : Hand)
    (h : st.movementHistory.length ≤ movementHistorySize) :
    (detectGesture st t hand).2.movementHistory.length ≤ movementHistorySize := by
  unfold detectGesture
  split
  · exact h
  · split
    · simp
    · split
      · simp [fireSt]
      · split
        · simp [fireSt]
        · split
          · split
            · simpa using nextHist_length_le _ _ _ h
            · split
              · simp [fireSt]
              · split
                · simp [fireSt]
                · simpa using nextHist_length_le _ _ _ h
          · simpa using nextHist_length_le _ _ _ h

/-- The per-frame hand loop preserves the window bound. -/
lemma handLoop_hist_le (hands : List Hand) (st : DState) (t : ℚ)
    (h : st.movementHistory.length ≤ movementHistorySize) :
    (handLoop st t hands).2.movementHistory.length ≤ movementHistorySize := by
  induction hands generalizing st with
  | nil => exact h
  | cons hd tl ih =>
    unfold handLoop
    have hd1 := detectGesture_hist_le st t hd h
    rcases heq : detectGesture st t hd with ⟨g, st'⟩
    rw [heq] at hd1
    cases g with
    | none => exact ih st' hd1
    | some g => exact hd1

/-- One `process_frame` call preserves the window bound. -/
lemma processFrame_hist_le (st : DState) (t : ℚ) (hands : List Hand)
    (h : st.movementHistory.length ≤ movementHistorySize) :
    (processFrame st t hands).2.movementHistory.length ≤ movementHistorySize := by
  unfold processFrame
  split
  · exact h
  · split
    · split
      · exact h
      · split
        · exact h
        · exact handLoop_hist_le _ _ _ h
    · split
      · simp
      · exact handLoop_hist_le _ _ _ h

/-- Any trace of `process_frame` calls preserves the window bound. -/
lemma runPF_hist_le (tr : List (ℚ × List Hand)) (st : DState)
    (h : st.movementHistory.length ≤ movementHistorySize) :
    (runPF st tr).movementHistory.length ≤ movementHistorySize := by
  induction tr generalizing st with
  | nil => exact h
  | cons p r ih =>
    unfold runPF
    exact ih _ (processFrame_hist_le st p.1 p.2 h)

/-- Across one call, `last_gesture_time` is either unchanged or set to the
call time. -/
lemma detectGesture_last_evolution (st : DState) (t : ℚ) (hand : Hand) :
    (detectGesture st t hand).2.lastGestureTime = st.lastGestureTime
    ∨ (detectGesture st t hand).2.lastGestureTime = t := by
  rcases heq : detectGesture st t hand with ⟨g, st'⟩
  cases g with
  | none => exact Or.inl (detectGesture_none_state st t hand st' heq)
  | some g =>
    right
    rw [(detectGesture_fire st t hand g st' heq).1]
    rfl

/-- If a trace with nondecreasing times starting no earlier than the stored
`last_gesture_time` emits a gesture at index `k`, then the call time at `k`
is at least `last_gesture_time` plus that gesture kind's cooldown. -/
lemma outsDG_some_gap (tr : List (ℚ × Hand)) (st : DState)
    (hsort : List.Pairwise (fun a b => a.1 ≤ b.1) tr)
    (hle : ∀ p ∈ tr, st.lastGestureTime ≤ p.1) :
    ∀ k g, (outsDG st tr).getD k none = some g →
      st.lastGestureTime + cooldownFor g ≤ (tr.getD k (0, [])).1 := by
  induction tr generalizing st with
  | nil => intro k g hk; simp [outsDG] at hk
  | cons p r ih =>
    intro k g hk
    rcases List.pairwise_cons.mp hsort with ⟨hp, hsort'⟩
    cases k with
    | zero =>
      simp only [outsDG, List.getD_cons_zero] at hk ⊢
      rcases heq : detectGesture st p.1 p.2 with ⟨g0, st'⟩
      rw [heq] at hk
      simp at hk
      subst hk
      have := (detectGesture_fire st p.1 p.2 g st' heq).2
      linarith
    | succ k =>
      simp only [outsDG, List.getD_cons_succ] at hk ⊢
      have hle' : ∀ q ∈ r, (detectGesture st p.1 p.2).2.lastGestureTime ≤ q.1 := by
        intro q hq
        rcases detectGesture_last_evolution st p.1 p.2 with h | h
        · rw [h]; exact hle q (List.mem_cons_of_mem _ hq)
        · rw [h]; exact hp q hq
      have hmono : st.lastGestureTime ≤ (detectGesture st p.1 p.2).2.lastGestureTime := by
        rcases detectGesture_last_evolution st p.1 p.2 with h | h
        · rw [h]
        · rw [h]; exact hle p (List.mem_cons_self _ _)
      have := ih (detectGesture st p.1 p.2).2 hsort' hle' k g hk
      linarith

/-- Two emissions along a time-sorted trace are separated by at least the
cooldown of the second emitted gesture kind. -/
lemma outsDG_pair_gap (tr : List (ℚ × Hand)) (st : DState)
    (hsort : List.Pairwise (fun a b => a.1 ≤ b.1) tr)
    (hle : ∀ p ∈ tr, st.lastGestureTime ≤ p.1) :
    ∀ i j g1 g2, i < j →
      (outsDG st tr).getD i none = some g1 →
      (outsDG st tr).getD j none = some g2 →
      (tr.getD i (0, [])).1 + cooldownFor g2 ≤ (tr.getD j (0, [])).1 := by
  induction tr generalizing st with
  | nil => intro i j g1 g2 hij h1 h2; simp [outsDG] at h1
  | cons p r ih =>
    intro i j g1 g2 hij h1 h2
    rcases List.pairwise_cons.mp hsort with ⟨hp, hsort'⟩
    cases i with
    | zero =>
      obtain ⟨j', rfl⟩ : ∃ j', j = j' + 1 := ⟨j - 1, by omega⟩
      simp only [outsDG, List.getD_cons_zero, List.getD_cons_succ] at h1 h2 ⊢
      rcases heq : detectGesture st p.1 p.2 with ⟨g0, st'⟩
      rw [heq] at h1 h2
      simp at h1
      subst h1
      have hfire := (detectGesture_fire st p.1 p.2 g1 st' heq).1
      have hlast : st'.lastGestureTime = p.1 := by rw [hfire]; rfl
      have hle' : ∀ q ∈ r, st'.lastGestureTime ≤ q.1 := by
        intro q hq; rw [hlast]; exact hp q hq
      have := outsDG_some_gap r st' hsort' hle' j' g2 h2
      rw [hlast] at this
      linarith
    | succ i' =>
      obtain ⟨j', rfl⟩ : ∃ j', j = j' + 1 := ⟨j - 1, by omega⟩
      simp only [outsDG, List.getD_cons_succ] at h1 h2 ⊢
      have hle' : ∀ q ∈ r, (detectGesture st p.1 p.2).2.lastGestureTime ≤ q.1 := by
        intro q hq
        rcases detectGesture_last_evolution st p.1 p.2 with h | h
        · rw [h]; exact hle q (List.mem_cons_of_mem _ hq)
        · rw [h]; exact hp q hq
      exact ih (detectGesture st p.1 p.2).2 hsort' hle' i' j' g1 g2 (by omega) h1 h2

/-- When the tracker is ready, both motion tests decline and the static-pose
cooldown has elapsed on a 21-landmark hand, `detect_gesture` reduces to the
open-palm / closed-fist decision. -/
lemma detectGesture_pose_eq (st : DState) (t : ℚ) (hand : Hand) (ref : Pt)
    (href : st.initialPosition = some ref)
    (hlen : hand.length = 21)
    (hsw : swipeTest st t (nextHist st (trackPoint hand) ref) = none)
    (hvol : volumeTest st t (nextHist st (trackPoint hand) ref) = none)
    (hcd : playPauseCooldown ≤ t - st.lastGestureTime) :
    detectGesture st t hand
      = (if IsOpenPalm hand then (some Gesture.play, fireSt st t)
         else if IsClosedFist hand then (some Gesture.pause, fireSt st t)
         else (none, ⟨some (trackPoint hand), nextHist st (trackPoint hand) ref,
            st.lastGestureTime, st.frameSkipCount⟩)) := by
  have h5 : ¬ hand.length < 5 := by omega
  have h21 : ¬ hand.length < 21 := by omega
  unfold detectGesture
  rw [if_neg h5]
  split
  · next hnone => rw [href] at hnone; cases hnone
  · next ref' hsome =>
    rw [href] at hsome
    cases Option.some.inj hsome
    split
    · next g0 heq => rw [hsw] at heq; cases heq
    · split
      · next g0 heq => rw [hvol] at heq; cases heq
      · rw [if_pos hcd, if_neg h21]

/-- Fingertip distance evaluates exactly when the fingertip is axis-aligned
with the wrist. -/
lemma tipDist_eval (hand : Hand) (i : ℕ)
    (h3 : (hand.getD i ⟨0,0⟩).y = (hand.getD 0 ⟨0,0⟩).y)
    (hba : (hand.getD 0 ⟨0,0⟩).x ≤ (hand.getD i ⟨0,0⟩).x) :
    tipDist hand i = (((hand.getD i ⟨0,0⟩).x - (hand.getD 0 ⟨0,0⟩).x : ℚ) : ℝ) := by
  unfold tipDist
  rw [h3, sub_self]
  rw [show ((0:ℝ))^2 = 0 by norm_num, add_zero]
  rw [show (((hand.getD i ⟨0,0⟩).x : ℝ) - ((hand.getD 0 ⟨0,0⟩).x : ℝ))^2
    = (((hand.getD i ⟨0,0⟩).x - (hand.getD 0 ⟨0,0⟩).x : ℚ) : ℝ)^2 by push_cast; ring]
  exact Real.sqrt_sq (by exact_mod_cast sub_nonneg.mpr hba)

/-- The average fingertip distance of the concrete open-palm hand is `0.15`. -/
lemma avgTipDist_palmHand : avgTipDist palmHand = ((3/20 : ℚ) : ℝ) := by
  have h4 := tipDist_eval palmHand 4 rfl (show (1:ℚ)/2 ≤ 13/20 by norm_num)
  have h8 := tipDist_eval palmHand 8 rfl (show (1:ℚ)/2 ≤ 13/20 by norm_num)
  have h12 := tipDist_eval palmHand 12 rfl (show (1:ℚ)/2 ≤ 13/20 by norm_num)
  have h16 := tipDist_eval palmHand 16 rfl (show (1:ℚ)/2 ≤ 13/20 by norm_num)
  have h20 := tipDist_eval palmHand 20 rfl (show (1:ℚ)/2 ≤ 13/20 by norm_num)
  unfold avgTipDist
  rw [h4, h8, h12, h16, h20]
  norm_num [palmHand]

/-- Evaluation of the eight-call trace: swipe-right fires at indices 3 and 7. -/
lemma outsDG_tr8 : outsDG initState tr8
    = [none, none, none, some Gesture.swipe_right,
       none, none, none, some Gesture.swipe_right] := by
  have s1 : detectGesture initState 0 (constHand ⟨1/10, 1/2⟩)
      = (none, ⟨some ⟨1/10, 1/2⟩, [], 0, 0⟩) := by
    norm_num [detectGesture, constHand, initState, trackPoint]
  have s2 : detectGesture ⟨some ⟨1/10, 1/2⟩, [], 0, 0⟩ (1/10) (constHand ⟨1/10, 1/2⟩)
      = (none, ⟨some ⟨1/10, 1/2⟩, [⟨0, 0⟩], 0, 0⟩) := by
    norm_num [detectGesture, constHand, trackPoint, nextHist, swipeTest, volumeTest,
      swipeRatio, netX, netY, gestureCooldown, minSwipeFrames, movementHistorySize,
      playPauseCooldown, abs_of_nonneg, abs_of_nonpos]
  have s3 : detectGesture ⟨some ⟨1/10, 1/2⟩, [⟨0, 0⟩], 0, 0⟩ (1/5) (constHand ⟨1/5, 1/2⟩)
      = (none, ⟨some ⟨1/5, 1/2⟩, [⟨0, 0⟩, ⟨1/10, 0⟩], 0, 0⟩) := by
    norm_num [detectGesture, constHand, trackPoint, nextHist, swipeTest, volumeTest,
      swipeRatio, netX, netY, gestureCooldown, minSwipeFrames, movementHistorySize,
      playPauseCooldown, abs_of_nonneg, abs_of_nonpos]
  have s4 : detectGesture ⟨some ⟨1/5, 1/2⟩, [⟨0, 0⟩, ⟨1/10, 0⟩], 0, 0⟩ (1/2)
      (constHand ⟨7/20, 1/2⟩)
      = (some Gesture.swipe_right, ⟨none, [], 1/2, 0⟩) := by
    norm_num [detectGesture, constHand, trackPoint, nextHist, swipeTest, volumeTest,
      swipeRatio, netX, netY, gestureCooldown, minSwipeFrames, movementHistorySize,
      playPauseCooldown, fireSt, abs_of_nonneg, abs_of_nonpos]
  have s5 : detectGesture ⟨none, [], 1/2, 0⟩ (3/5) (constHand ⟨1/10, 1/2⟩)
      = (none, ⟨some ⟨1/10, 1/2⟩, [], 1/2, 0⟩) := by
    norm_num [detectGesture, constHand, trackPoint]
  have s6 : detectGesture ⟨some ⟨1/10, 1/2⟩, [], 1/2, 0⟩ (7/10) (constHand ⟨1/10, 1/2⟩)
      = (none, ⟨some ⟨1/10, 1/2⟩, [⟨0, 0⟩], 1/2, 0⟩) := by
    norm_num [detectGesture, constHand, trackPoint, nextHist, swipeTest, volumeTest,
      swipeRatio, netX, netY, gestureCooldown, minSwipeFrames, movementHistorySize,
      playPauseCooldown, abs_of_nonneg, abs_of_nonpos]
  have s7 : detectGesture ⟨some ⟨1/10, 1/2⟩, [⟨0, 0⟩], 1/2, 0⟩ (4/5) (constHand ⟨1/5, 1/2⟩)
      = (none, ⟨some ⟨1/5, 1/2⟩, [⟨0, 0⟩, ⟨1/10, 0⟩], 1/2, 0⟩) := by
    norm_num [detectGesture, constHand, trackPoint, nextHist, swipeTest, volumeTest,
      swipeRatio, netX, netY, gestureCooldown, minSwipeFrames, movementHistorySize,
      playPauseCooldown, abs_of_nonneg, abs_of_nonpos]
  have s8 : detectGesture ⟨some ⟨1/5, 1/2⟩, [⟨0, 0⟩, ⟨1/10, 0⟩], 1/2, 0⟩ 1
      (constHand ⟨7/20, 1/2⟩)
      = (some Gesture.swipe_right, ⟨none, [], 1, 0⟩) := by
    norm_num [detectGesture, constHand, trackPoint, nextHist, swipeTest, volumeTest,
      swipeRatio, netX, netY, gestureCooldown, minSwipeFrames, movementHistorySize,
      playPauseCooldown, fireSt, abs_of_nonneg, abs_of_nonpos]
  show outsDG initState
    ((0, constHand ⟨1/10, 1/2⟩) :: (1/10, constHand ⟨1/10, 1/2⟩)
      :: (1/5, constHand ⟨1/5, 1/2⟩) :: (1/2, constHand ⟨7/20, 1/2⟩)
      :: (3/5, constHand ⟨1/10, 1/2⟩) :: (7/10, constHand ⟨1/10, 1/2⟩)
      :: (4/5, constHand ⟨1/5, 1/2⟩) :: (1, constHand ⟨7/20, 1/2⟩) :: []) = _
  rw [outsDG, s1]
  rw [outsDG, s2]
  rw [outsDG, s3]
  rw [outsDG, s4]
  rw [outsDG, s5]
  rw [outsDG, s6]
  rw [outsDG, s7]
  rw [outsDG, s8]
  rfl

/-- C1 (counterexample): starting from a fresh tracker with no recent gesture,
the three scenario calls with reference points `(0.3, 0.5)`, `(0.35, 0.51)`,
`(0.42, 0.50)` do NOT make the third call return swipe-right: after three
calls the movement window holds only two samples, below
`min_swipe_frames = 3`, so the swipe test cannot fire. -/
theorem c1_counterexample :
    (detectGesture c1st2x (6/5) (constHand ⟨21/50, 1/2⟩)).1 ≠ some Gesture.swipe_right := by
  have h1 : detectGesture initState 1 (constHand ⟨3/10, 1/2⟩)
      = (none, ⟨some ⟨3/10, 1/2⟩, [], 0, 0⟩) := by
    norm_num [detectGesture, constHand, initState, trackPoint]
  have h2 : detectGesture c1st1x (11/10) (constHand ⟨7/20, 51/100⟩)
      = (none, ⟨some ⟨7/20, 51/100⟩, [⟨1/20, 1/100⟩], 0, 0⟩) := by
    rw [show c1st1x = (⟨some ⟨3/10, 1/2⟩, [], 0, 0⟩ : DState) by rw [c1st1x, h1]]
    norm_num [detectGesture, constHand, trackPoint, nextHist, swipeTest, volumeTest,
      swipeRatio, netX, netY, gestureCooldown, minSwipeFrames, movementHistorySize,
      playPauseCooldown, abs_of_nonneg, abs_of_nonpos]
  rw [show c1st2x = (⟨some ⟨7/20, 51/100⟩, [⟨1/20, 1/100⟩], 0, 0⟩ : DState) by
    rw [c1st2x, h2]]
  norm_num [detectGesture, constHand, trackPoint, nextHist, swipeTest, volumeTest,
    swipeRatio, netX, netY, gestureCooldown, minSwipeFrames, movementHistorySize,
    playPauseCooldown, abs_of_nonneg, abs_of_nonpos]
  exact fun h => Option.noConfusion h

/-- C1 (amended): the three scenario calls each return no gesture; a fourth
call whose reference point is `(0.56, 0.51)` returns swipe-right (the window
then holds three samples and the net displacement between its newest and
oldest samples is `0.09 > 0.08` with ratio `0 < 0.5`). -/
theorem c1_amended_swipe_on_fourth_call :
    (detectGesture initState 1 (constHand ⟨3/10, 1/2⟩)).1 = none
    ∧ (detectGesture c1st1x (11/10) (constHand ⟨7/20, 51/100⟩)).1 = none
    ∧ (detectGesture c1st2x (6/5) (constHand ⟨21/50, 1/2⟩)).1 = none
    ∧ (detectGesture c1st3x (13/10) (constHand ⟨14/25, 51/100⟩)).1
        = some Gesture.swipe_right := by
  have h1 : detectGesture initState 1 (constHand ⟨3/10, 1/2⟩)
      = (none, ⟨some ⟨3/10, 1/2⟩, [], 0, 0⟩) := by
    norm_num [detectGesture, constHand, initState, trackPoint]
  have e1 : c1st1x = (⟨some ⟨3/10, 1/2⟩, [], 0, 0⟩ : DState) := by rw [c1st1x, h1]
  have h2 : detectGesture c1st1x (11/10) (constHand ⟨7/20, 51/100⟩)
      = (none, ⟨some ⟨7/20, 51/100⟩, [⟨1/20, 1/100⟩], 0, 0⟩) := by
    rw [e1]
    norm_num [detectGesture, constHand, trackPoint, nextHist, swipeTest, volumeTest,
      swipeRatio, netX, netY, gestureCooldown, minSwipeFrames, movementHistorySize,
      playPauseCooldown, abs_of_nonneg, abs_of_nonpos]
  have e2 : c1st2x = (⟨some ⟨7/20, 51/100⟩, [⟨1/20, 1/100⟩], 0, 0⟩ : DState) := by
    rw [c1st2x, h2]
  have h3 : detectGesture c1st2x (6/5) (constHand ⟨21/50, 1/2⟩)
      = (none, ⟨some ⟨21/50, 1/2⟩, [⟨1/20, 1/100⟩, ⟨7/100, -1/100⟩], 0, 0⟩) := by
    rw [e2]
    norm_num [detectGesture, constHand, trackPoint, nextHist, swipeTest, volumeTest,
      swipeRatio, netX, netY, gestureCooldown, minSwipeFrames, movementHistorySize,
      playPauseCooldown, abs_of_nonneg, abs_of_nonpos]
  have e3 : c1st3x = (⟨some ⟨21/50, 1/2⟩, [⟨1/20, 1/100⟩, ⟨7/100, -1/100⟩], 0, 0⟩ : DState) := by
    rw [c1st3x, h3]
  have h4 : (detectGesture c1st3x (13/10) (constHand ⟨14/25, 51/100⟩)).1
      = some Gesture.swipe_right := by
    rw [e3]
    norm_num [detectGesture, constHand, trackPoint, nextHist, swipeTest, volumeTest,
      swipeRatio, netX, netY, gestureCooldown, minSwipeFrames, movementHistorySize,
      playPauseCooldown, abs_of_nonneg, abs_of_nonpos]
  exact ⟨by rw [h1], by rw [h2], by rw [h3], h4⟩

/-- C2 (amended): immediately after any call in which the per-hand classifier
`detect_gesture` emits a gesture (motion or static pose), the tracker state is
reset: the stored reference position is absent and the movement window is
empty. -/
theorem c2_fire_resets_tracker (st : DState) (t : ℚ) (hand : Hand) (g : Gesture)
    (st' : DState) (h : detectGesture st t hand = (some g, st')) :
    st'.initialPosition = none ∧ st'.movementHistory = [] := by
  rw [(detectGesture_fire st t hand g st' h).1]
  exact ⟨rfl, rfl⟩

/-- C2 (witness): a concrete swipe-right emission whose successor state has no
reference and an empty window. -/
theorem c2_witness :
    detectGesture ⟨some ⟨1/5, 1/2⟩, [⟨0, 0⟩, ⟨1/10, 0⟩], 0, 0⟩ 1 (constHand ⟨7/20, 1/2⟩)
      = (some Gesture.swipe_right, ⟨none, [], 1, 0⟩)
    ∧ ((⟨none, [], 1, 0⟩ : DState).initialPosition = none
       ∧ (⟨none, [], 1, 0⟩ : DState).movementHistory = []) :=
  ⟨by norm_num [detectGesture, constHand, trackPoint, nextHist, swipeTest, volumeTest,
      swipeRatio, netX, netY, gestureCooldown, minSwipeFrames, movementHistorySize,
      playPauseCooldown, fireSt, abs_of_nonneg, abs_of_nonpos],
   c2_fire_resets_tracker ⟨some ⟨1/5, 1/2⟩, [⟨0, 0⟩, ⟨1/10, 0⟩], 0, 0⟩ 1
    (constHand ⟨7/20, 1/2⟩) Gesture.swipe_right ⟨none, [], 1, 0⟩
    (by norm_num [detectGesture, constHand, trackPoint, nextHist, swipeTest, volumeTest,
      swipeRatio, netX, netY, gestureCooldown, minSwipeFrames, movementHistorySize,
      playPauseCooldown, fireSt, abs_of_nonneg, abs_of_nonpos])⟩

/-- C2 (counterexample): the two-hand quit path of `process_frame` emits
`quit` but does not reset the tracker: the movement window stays nonempty. -/
theorem c2_quit_counterexample :
    (processFrame ⟨some ⟨1/2, 1/2⟩, [⟨1/100, 0⟩], 0, 3⟩ 1
        [[⟨1/2, 1/5⟩], [⟨1/2, 1/5⟩]]).1 = some Gesture.quit
    ∧ (processFrame ⟨some ⟨1/2, 1/2⟩, [⟨1/100, 0⟩], 0, 3⟩ 1
        [[⟨1/2, 1/5⟩], [⟨1/2, 1/5⟩]]).2.movementHistory ≠ [] := by
  norm_num [processFrame, processEveryNFrames]

/-- C3 (confirmed): along any sequence of classifier calls with nondecreasing
nonnegative wall-clock times from a fresh detector, two emitted motion-class
gestures are separated by at least `gesture_cooldown = 0.3` and two emitted
static-pose gestures by at least `play_pause_cooldown = 2.0`. -/
theorem c3_cooldown_monotonicity (tr : List (ℚ × Hand)) (i j : ℕ) (g1 g2 : Gesture)
    (hsort : List.Pairwise (fun a b => a.1 ≤ b.1) tr)
    (hpos : ∀ p ∈ tr, 0 ≤ p.1)
    (hij : i < j)
    (h1 : (outsDG initState tr).getD i none = some g1)
    (h2 : (outsDG initState tr).getD j none = some g2) :
    (isMotionGesture g1 = true → isMotionGesture g2 = true →
      gestureCooldown ≤ (tr.getD j ((0 : ℚ), ([] : Hand))).1 - (tr.getD i ((0 : ℚ), ([] : Hand))).1)
    ∧ (isStaticGesture g1 = true → isStaticGesture g2 = true →
      playPauseCooldown ≤ (tr.getD j ((0 : ℚ), ([] : Hand))).1 - (tr.getD i ((0 : ℚ), ([] : Hand))).1) := by
  have hle : ∀ p ∈ tr, initState.lastGestureTime ≤ p.1 := by
    intro p hp
    simpa [initState] using hpos p hp
  have key := outsDG_pair_gap tr initState hsort hle i j g1 g2 hij h1 h2
  constructor
  · intro hm1 hm2
    have hc : cooldownFor g2 = gestureCooldown := by
      cases g2 <;> simp_all [cooldownFor, isMotionGesture, isStaticGesture]
    rw [hc] at key
    linarith
  · intro hs1 hs2
    have hc : cooldownFor g2 = playPauseCooldown := by
      cases g2 <;> simp_all [cooldownFor, isMotionGesture, isStaticGesture]
    rw [hc] at key
    linarith

/-- C3 (witness): in the concrete eight-call trace, swipe-right fires at
times `0.5` and `1`, and the theorem yields the `0.3`-second separation. -/
theorem c3_witness :
    gestureCooldown ≤ (tr8.getD 7 ((0 : ℚ), ([] : Hand))).1
      - (tr8.getD 3 ((0 : ℚ), ([] : Hand))).1 :=
  (c3_cooldown_monotonicity tr8 3 7 Gesture.swipe_right Gesture.swipe_right
    (by norm_num [tr8, List.pairwise_cons])
    (by norm_num [tr8])
    (by norm_num)
    (by rw [outsDG_tr8]; rfl)
    (by rw [outsDG_tr8]; rfl)).1 rfl rfl

/-- C4 (confirmed): on any processed frame with at least two observed hands
whose first two wrist landmarks both have `y < 0.3`, `process_frame` returns
`quit`, regardless of the tracker state, cooldown timestamps, or landmark
data. -/
theorem c4_two_hands_raised_quit (st : DState) (t : ℚ) (hands : List Hand)
    (hproc : (st.frameSkipCount + 1) % processEveryNFrames = 0)
    (hn : 2 ≤ hands.length)
    (hw0 : 1 ≤ (hands.getD 0 []).length)
    (hw1 : 1 ≤ (hands.getD 1 []).length)
    (hy0 : ((hands.getD 0 []).getD 0 ⟨0,0⟩).y < 3/10)
    (hy1 : ((hands.getD 1 []).getD 0 ⟨0,0⟩).y < 3/10) :
    (processFrame st t hands).1 = some Gesture.quit := by
  unfold processFrame
  rw [if_neg (by simp [hproc]), if_pos hn, if_neg (by omega), if_pos ⟨hy0, hy1⟩]

/-- C4 (witness): two raised single-landmark hands at `y = 0.2` on a processed
frame yield `quit`. -/
theorem c4_witness :
    (processFrame ⟨none, [], 0, 3⟩ 0 [[⟨1/2, 1/5⟩], [⟨1/2, 1/5⟩]]).1 = some Gesture.quit :=
  c4_two_hands_raised_quit _ 0 _ rfl (by decide) (by decide) (by decide)
    (show (1:ℚ)/5 < 3/10 by norm_num) (show (1:ℚ)/5 < 3/10 by norm_num)

/-- C5 (confirmed): after any sequence of `process_frame` calls from a fresh
detector, the movement window never exceeds its capacity of
`movement_history_size = 3`. -/
theorem c5_window_bound (tr : List (ℚ × List Hand)) :
    (runPF initState tr).movementHistory.length ≤ movementHistorySize :=
  runPF_hist_le tr initState (by simp [initState])

/-- C6 (amended): within a frame, hands are classified in order and the loop
stops at the first hand that yields a gesture; hands after a gesture-bearing
hand have no effect on the result or the state.  (Hands after a
non-gesture-bearing hand ARE processed and do affect the tracker state.) -/
theorem c6_first_firing_hand_wins (st : DState) (t : ℚ) (h1 : Hand) (g : Gesture)
    (st' : DState) (rest : List Hand)
    (hfire : detectGesture st t h1 = (some g, st')) :
    handLoop st t (h1 :: rest) = (some g, st') := by
  unfold handLoop
  rw [hfire]

/-- C6 (witness): when the first hand fires swipe-right, a second hand is
ignored entirely. -/
theorem c6_witness :
    handLoop ⟨some ⟨1/5, 1/2⟩, [⟨0, 0⟩, ⟨1/10, 0⟩], 0, 0⟩ 1
      [constHand ⟨7/20, 1/2⟩, constHand ⟨9/10, 9/10⟩]
      = (some Gesture.swipe_right, ⟨none, [], 1, 0⟩) :=
  c6_first_firing_hand_wins _ 1 _ Gesture.swipe_right _ _
    (by norm_num [detectGesture, constHand, trackPoint, nextHist, swipeTest, volumeTest,
      swipeRatio, netX, netY, gestureCooldown, minSwipeFrames, movementHistorySize,
      playPauseCooldown, fireSt, abs_of_nonneg, abs_of_nonpos])

/-- C6 (counterexample): with a first hand that yields no gesture, the data of
the second hand changes the resulting tracker state, so hands after the first
are not ignored. -/
theorem c6_counterexample :
    (processFrame ⟨none, [], 0, 3⟩ 1 [constHand ⟨1/2, 1/2⟩, constHand ⟨3/5, 3/5⟩]).2.initialPosition
    ≠ (processFrame ⟨none, [], 0, 3⟩ 1 [constHand ⟨1/2, 1/2⟩, constHand ⟨7/10, 7/10⟩]).2.initialPosition := by
  norm_num [processFrame, processEveryNFrames, handLoop, detectGesture, constHand,
    trackPoint, nextHist, swipeTest, volumeTest, swipeRatio, netX, netY,
    gestureCooldown, minSwipeFrames, movementHistorySize, playPauseCooldown,
    abs_of_nonneg, abs_of_nonpos]

/-- C7 (amended): a malformed hand observation with fewer than 5 landmarks
makes `detect_gesture` return no gesture with the exception contained, and
leaves the tracker state entirely UNCHANGED — in particular no tracker reset
is performed. -/
theorem c7_short_hand_unchanged (st : DState) (t : ℚ) (hand : Hand)
    (h : hand.length < 5) :
    detectGesture st t hand = (none, st) := by
  unfold detectGesture
  rw [if_pos h]

/-- C7 (witness): a one-landmark hand returns no gesture and leaves a
nonempty tracker state exactly as it was. -/
theorem c7_witness :
    detectGesture ⟨some ⟨1/2, 1/2⟩, [⟨1/100, 1/100⟩], 0, 0⟩ 1 [⟨1/2, 1/2⟩]
      = (none, ⟨some ⟨1/2, 1/2⟩, [⟨1/100, 1/100⟩], 0, 0⟩) :=
  c7_short_hand_unchanged _ 1 _ (by decide)

/-- C7 (counterexample): a zero-landmark (malformed) hand returns no gesture
but does NOT trigger a tracker reset: the stored reference survives the
call. -/
theorem c7_counterexample :
    (detectGesture ⟨some ⟨1/2, 1/2⟩, [⟨1/100, 1/100⟩], 0, 0⟩ 1 []).1 = none
    ∧ (detectGesture ⟨some ⟨1/2, 1/2⟩, [⟨1/100, 1/100⟩], 0, 0⟩ 1 []).2.initialPosition
        ≠ none := by
  refine ⟨by norm_num [detectGesture], fun h => ?_⟩
  norm_num [detectGesture] at h
  exact Option.noConfusion h

/-- C8 (confirmed): on a processed frame with an empty observation list,
`process_frame` returns no gesture and resets the tracker (reference absent,
window empty), preserving `last_gesture_time`. -/
theorem c8_empty_observations_reset (st : DState) (t : ℚ)
    (hproc : (st.frameSkipCount + 1) % processEveryNFrames = 0) :
    processFrame st t []
      = (none, ⟨none, [], st.lastGestureTime, st.frameSkipCount + 1⟩) := by
  unfold processFrame
  rw [if_neg (by simp [hproc]), if_neg (by simp), if_pos (by simp)]

/-- C8 (witness): a concrete call with no hands resets a nonempty tracker. -/
theorem c8_witness :
    processFrame ⟨some ⟨1/2, 1/2⟩, [⟨1/100, 0⟩], 7, 3⟩ 9 []
      = (none, ⟨none, [], 7, 4⟩) :=
  c8_empty_observations_reset _ 9 rfl

/-- C9 (confirmed): when the tracker is ready, neither motion test fires and
`play_pause_cooldown` has elapsed, a 21-landmark hand returns `play` if the
average wrist-to-fingertip distance exceeds `0.12`, `pause` if it is below
`0.06`, and no gesture otherwise. -/
theorem c9_static_pose_thresholds (st : DState) (t : ℚ) (hand : Hand) (ref : Pt)
    (href : st.initialPosition = some ref)
    (hlen : hand.length = 21)
    (hsw : swipeTest st t (nextHist st (trackPoint hand) ref) = none)
    (hvol : volumeTest st t (nextHist st (trackPoint hand) ref) = none)
    (hcd : playPauseCooldown ≤ t - st.lastGestureTime) :
    ((12/100 : ℝ) < avgTipDist hand → (detectGesture st t hand).1 = some Gesture.play)
    ∧ (avgTipDist hand < (6/100 : ℝ) → (detectGesture st t hand).1 = some Gesture.pause)
    ∧ (¬ (12/100 : ℝ) < avgTipDist hand → ¬ avgTipDist hand < (6/100 : ℝ) →
        (detectGesture st t hand).1 = none) := by
  have hkey := detectGesture_pose_eq st t hand ref href hlen hsw hvol hcd
  refine ⟨fun hopen => ?_, fun hfist => ?_, fun hno hnf => ?_⟩
  · rw [hkey, if_pos (show IsOpenPalm hand from hopen)]
  · have hnotopen : ¬ IsOpenPalm hand := by
      unfold IsOpenPalm
      unfold IsClosedFist at hfist
      push_neg
      linarith
    rw [hkey, if_neg hnotopen, if_pos (show IsClosedFist hand from hfist)]
  · rw [hkey, if_neg (show ¬ IsOpenPalm hand from hno),
      if_neg (show ¬ IsClosedFist hand from hnf)]

/-- C9 (witness): the concrete open-palm hand (average distance `0.15`)
returns `play` at time 5 from a ready tracker. -/
theorem c9_witness :
    (detectGesture ⟨some ⟨1/2, 1/2⟩, [], 0, 0⟩ 5 palmHand).1 = some Gesture.play :=
  (c9_static_pose_thresholds ⟨some ⟨1/2, 1/2⟩, [], 0, 0⟩ 5 palmHand ⟨1/2, 1/2⟩ rfl rfl
    (by norm_num [swipeTest, nextHist, trackPoint, palmHand, minSwipeFrames,
      movementHistorySize])
    (by norm_num [volumeTest, nextHist, trackPoint, palmHand, minSwipeFrames,
      movementHistorySize])
    (show (2:ℚ) ≤ 5 - 0 by norm_num)).1
    (by rw [avgTipDist_palmHand]; norm_num)

/-- C10 (confirmed): a call whose incremented frame counter is not a multiple
of `process_every_n_frames = 4` returns no gesture and leaves reference,
window and cooldown timestamp unchanged (only the counter advances); no
gesture test runs, not even the two-hand quit test. -/
theorem c10_skipped_frame_no_effect (st : DState) (t : ℚ) (hands : List Hand)
    (hskip : (st.frameSkipCount + 1) % processEveryNFrames ≠ 0) :
    processFrame st t hands
      = (none, ⟨st.initialPosition, st.movementHistory, st.lastGestureTime,
          st.frameSkipCount + 1⟩) := by
  unfold processFrame
  rw [if_pos hskip]

/-- C10 (witness): a skipped frame ignores even a two-raised-hands
observation and leaves the classification state untouched. -/
theorem c10_witness :
    processFrame ⟨some ⟨1/2, 1/2⟩, [⟨1/100, 0⟩], 7, 0⟩ 9 [[⟨1/2, 1/5⟩], [⟨1/2, 1/5⟩]]
      = (none, ⟨some ⟨1/2, 1/2⟩, [⟨1/100, 0⟩], 7, 1⟩) :=
  c10_skipped_frame_no_effect _ 9 _ (by decide)
